import Mathlib

/-!
Shallow embedding of the Canon EDSDK capture/recording coordinator
(`src/src-tauri/src/canon.rs`) of the bonio-booth tauri backend.

Modelling conventions:
* The process-global mutable state (`SDK_INITIALIZED`, `IS_CAPTURING`,
  `IS_MOVIE_RECORDING`, the `CAPTURE_DATA` / `MOVIE_DATA` / `CAMERA_MANAGER`
  `OnceLock` cells) is gathered in one record `Canon.S`; a `OnceLock` that has
  not been initialised is `none`.
* The camera hardware is represented by the properties the coordinator sets
  through the binding layer (`SaveTo`, capacity, EVF output, movie-mode
  switch, the `Record` property, the shutter-button press state).
* Native SDK calls that can fail are driven by per-call oracles carried in an
  environment record (`none` = `EDS_ERR_OK`, `some e` = the native error
  code `e`); calls whose result the source discards (`let _ = ...`) are
  modelled as applying their device effect.
* The poll-and-sleep wait loops are modelled by a list of event batches: each
  `EdsGetEvent()` call dispatches one batch of object events to the
  registered handler, and exhausting the list is the flow's timeout.
* Mutex locks are modelled as always succeeding (the embedding is
  sequential); `try_lock` paths that merely skip are not needed by the
  claims below.
-/

namespace Canon

/-- `kEdsPropID_Record` value for "begin recording" (canon.rs: `kEdsRecord_Begin`, 4). -/
def kEdsRecord_Begin : Nat := 4

/-- `kEdsPropID_Record` value for "end recording" (canon.rs: `kEdsRecord_End`, 0). -/
def kEdsRecord_End : Nat := 0

/-- Translation of native error codes to strings (edsdk_sys.rs `error_to_string`). -/
def errorToString (e : Nat) : String :=
  if e = 0x00000000 then "OK"
  else if e = 0x00000002 then "Internal error"
  else if e = 0x00000080 then "Device not found"
  else if e = 0x00000081 then "Device busy"
  else if e = 0x000000C1 then "Communication disconnected"
  else if e = 0x00002003 then "Session not open"
  else if e = 0x00000061 then "Invalid handle"
  else if e = 0x00000060 then "Invalid parameter"
  else if e = 0x00008D01 then "Auto-focus failed"
  else if e = 0x00008D06 then "No memory card"
  else if e = 0x00008D0B then "No lens attached"
  else if e = 0x0000A101 then "Low battery"
  else if e = 0x0000A102 then "Object not ready"
  else if e = 0x00000007 then "Not supported"
  else if e = 0x00000005 then "Operation cancelled"
  else "Unknown error"

/-- Base64 alphabet used by `base64::engine::general_purpose::STANDARD`. -/
def base64Table : List Char :=
  [ 'A','B','C','D','E','F','G','H','I','J','K','L','M','N','O','P','Q','R','S','T','U','V','W','X','Y','Z',
    'a','b','c','d','e','f','g','h','i','j','k','l','m','n','o','p','q','r','s','t','u','v','w','x','y','z',
    '0','1','2','3','4','5','6','7','8','9','+','/' ]

/-- One base64 digit. -/
def b64c (n : Nat) : Char := base64Table.getD n '?'

/-- Standard (padded) base64 of a byte list, the pure function behind
`base64::engine::general_purpose::STANDARD.encode`. -/
def base64Encode : List Nat → String
  | [] => ""
  | [a] =>
    let a := a % 256
    String.mk [b64c (a / 4), b64c (a % 4 * 16), '=', '=']
  | [a, b] =>
    let a := a % 256
    let b := b % 256
    String.mk [b64c (a / 4), b64c (a % 4 * 16 + b / 16), b64c (b % 16 * 4), '=']
  | a :: b :: c :: rest =>
    let a := a % 256
    let b := b % 256
    let c := c % 256
    String.mk [b64c (a / 4), b64c (a % 4 * 16 + b / 16), b64c (b % 16 * 4 + c / 64),
               b64c (c % 64)]
      ++ base64Encode rest

/-- `kEdsPropID_SaveTo` values: host memory, SD card, or both. -/
inductive SaveTo
  | host
  | camera
  | both
deriving DecidableEq, Repr

/-- `EdsCapacity` record sent by `EdsSetCapacity`. -/
structure EdsCapacity where
  numberOfFreeClusters : Nat
  bytesPerSector : Nat
  reset : Nat
deriving DecidableEq, Repr

/-- The capacity the coordinator always sets: `{0x7FFFFFFF, 512, 1}`. -/
def fullCapacity : EdsCapacity := ⟨0x7FFFFFFF, 512, 1⟩

/-- The camera-device-side properties the coordinator manipulates. -/
structure CameraDevice where
  saveTo : SaveTo
  capacity : Option EdsCapacity
  /-- `kEdsPropID_Evf_OutputDevice = kEdsEvfOutputDevice_PC` (live view on). -/
  evfOutputPC : Bool
  /-- Movie-mode switch (`MovieSelectSwON` / `MovieSelectSwOFF`). -/
  movieMode : Bool
  /-- Last value written to `kEdsPropID_Record`. -/
  recordProp : Nat
  /-- Whether `PressShutterButton` is currently held. -/
  shutterPressed : Bool
deriving DecidableEq, Repr

/-- The `CaptureData` record behind `CAPTURE_DATA`. -/
structure CaptureData where
  image_data : Option (List Nat)
  capture_complete : Bool
  capture_error : Option String
deriving DecidableEq, Repr

/-- `CaptureData::default()`. -/
def CaptureData.default : CaptureData := ⟨none, false, none⟩

/-- The `MovieData` record behind `MOVIE_DATA`. -/
structure MovieData where
  movie_path : Option String
  download_complete : Bool
  download_error : Option String
deriving DecidableEq, Repr

/-- `MovieData::default()`. -/
def MovieData.default : MovieData := ⟨none, false, none⟩

/-- The `CameraManager` record behind `CAMERA_MANAGER`.  The opaque
`EdsCameraRef` handle is abstracted to whether one is held. -/
structure CameraManager where
  camera_ref : Bool
  session_open : Bool
  event_handler_registered : Bool
  state_event_handler_registered : Bool
deriving DecidableEq, Repr

/-- The process-global state of canon.rs. -/
structure S where
  sdkInitialized : Bool
  isCapturing : Bool
  isMovieRecording : Bool
  captureData : Option CaptureData
  movieData : Option MovieData
  manager : Option CameraManager
  device : CameraDevice
deriving DecidableEq, Repr

/-- The `CaptureResult` payload returned by capture commands. -/
structure CaptureResult where
  success : Bool
  error : Option String
  image_data : Option String
deriving DecidableEq, Repr

/-- Outcomes of the native calls made by the photo
(`DirItemRequestTransfer`) branch of the object-event handler. -/
structure DirItemTransferOutcome where
  /-- `EdsGetDirectoryItemInfo` error, `none` = OK. -/
  dirInfoErr : Option Nat
  /-- `EdsCreateMemoryStream` error. -/
  createStreamErr : Option Nat
  /-- `EdsDownload` error. -/
  downloadErr : Option Nat
  /-- `EdsGetPointer` returned OK with a non-null pointer. -/
  getPointerOk : Bool
  /-- `EdsGetLength` returned OK with a non-zero length. -/
  lengthOk : Bool
  /-- The downloaded bytes when everything succeeded. -/
  data : List Nat
deriving DecidableEq, Repr

/-- Outcomes of the native calls made by the movie (`DirItemCreated`)
branch of the object-event handler. -/
structure DirItemCreatedOutcome where
  dirInfoErr : Option Nat
  /-- File name reported by `EdsGetDirectoryItemInfo`. -/
  filename : String
  /-- `CString::new` on the local path failed (embedded NUL). -/
  invalidPath : Bool
  /-- `EdsCreateFileStream` error. -/
  createStreamErr : Option Nat
  /-- `EdsDownload` error. -/
  downloadErr : Option Nat
deriving DecidableEq, Repr

/-- An object event dispatched by `EdsGetEvent` to the registered handler,
together with the outcomes of the native calls the handler then makes. -/
inductive ObjEvent
  | dirItemCreated (o : DirItemCreatedOutcome)
  | dirItemRequestTransfer (o : DirItemTransferOutcome)
  | other
deriving DecidableEq, Repr

/-- Local path the handler downloads a movie to
(`temp_dir()/bonio-booth/videos/<filename>`). -/
def moviePath (filename : String) : String :=
  "bonio-booth/videos/" ++ filename

/-- The object-event callback `object_event_handler` (canon.rs 251-438).
Returns the updated global state; the handler's own return value is always
`EDS_ERR_OK` and is omitted. -/
def object_event_handler (ev : ObjEvent) (s : S) : S :=
  match ev with
  | ObjEvent.dirItemCreated o =>
    -- Movie branch: DirItemCreated while IS_MOVIE_RECORDING
    if s.isMovieRecording = true then
      match s.movieData with
      | none => s
      | some md =>
        let md' :=
          match o.dirInfoErr with
          | some e =>
            { md with download_error := some ("Get dir info failed: " ++ errorToString e),
                      download_complete := true }
          | none =>
            if o.invalidPath = true then
              { md with download_error := some "Invalid path", download_complete := true }
            else
              match o.createStreamErr with
              | some e =>
                { md with download_error := some ("Create file stream failed: " ++ errorToString e),
                          download_complete := true }
              | none =>
                match o.downloadErr with
                | some e =>
                  { md with download_error := some ("Movie download failed: " ++ errorToString e),
                            download_complete := true }
                | none =>
                  { md with movie_path := some (moviePath o.filename),
                            download_complete := true,
                            download_error := none }
        { s with movieData := some md' }
    else
      -- event != DirItemRequestTransfer: ignored
      s
  | ObjEvent.dirItemRequestTransfer o =>
    match s.captureData with
    | none => s
    | some cd =>
      let cd' :=
        match o.dirInfoErr with
        | some e =>
          { cd with capture_error := some ("Get dir info failed: " ++ errorToString e),
                    capture_complete := true }
        | none =>
          match o.createStreamErr with
          | some e =>
            { cd with capture_error := some ("Create stream failed: " ++ errorToString e),
                      capture_complete := true }
          | none =>
            match o.downloadErr with
            | some e =>
              { cd with capture_error := some ("Download failed: " ++ errorToString e),
                        capture_complete := true }
            | none =>
              if o.getPointerOk = false then
                { cd with capture_error := some "Get pointer failed", capture_complete := true }
              else if o.lengthOk = false then
                { cd with capture_error := some "Get length failed", capture_complete := true }
              else
                { cd with image_data := some o.data,
                          capture_complete := true,
                          capture_error := none }
      { s with captureData := some cd' }
  | ObjEvent.other => s

/-- One `EdsGetEvent()` call: dispatch a batch of pending object events to
the registered handler, in order. -/
def pumpBatch : List ObjEvent → S → S
  | [], s => s
  | ev :: rest, s => pumpBatch rest (object_event_handler ev s)

/-- The `canon_take_picture` wait loop: pump, then stop once
`capture_complete`; exhausting the batches is the 30 s timeout. -/
def pumpLoop : List (List ObjEvent) → S → S
  | [], s => s
  | batch :: rest, s =>
    let s1 := pumpBatch batch s
    if (s1.captureData.getD CaptureData.default).capture_complete = true then s1
    else pumpLoop rest s1

/-- `CaptureGuard`'s `Drop` impl: `IS_CAPTURING.store(false)`.  Applied at
every scope exit after the guard is acquired. -/
def releaseGuard (s : S) : S := { s with isCapturing := false }

/-- The "still pending" result `{success:false, error:None, image_data:None}`. -/
def pendingResult : CaptureResult := ⟨false, none, none⟩

/-- The result returned when `CAPTURE_DATA` was never created. -/
def noCaptureResult : CaptureResult := ⟨false, some "No capture in progress", none⟩

/-- `canon_get_capture_result` (canon.rs 1138-1203): non-blocking poll of the
capture record. -/
def canon_get_capture_result (s : S) : Except String CaptureResult × S :=
  match s.captureData with
  | none => (Except.ok noCaptureResult, s)
  | some cd =>
    if cd.capture_complete = false then
      (Except.ok pendingResult, s)
    else
      -- image_data.take(), capture_error.take(), capture_complete = false
      let s1 := { s with captureData := some CaptureData.default }
      match cd.capture_error with
      | some err => (Except.ok ⟨false, some err, none⟩, s1)
      | none =>
        match cd.image_data with
        | some data => (Except.ok ⟨true, none, some (base64Encode data)⟩, s1)
        | none => (Except.ok ⟨false, some "Capture complete but no data", none⟩, s1)

/-- The terminal result a completed capture record turns into when polled. -/
def captureTerminal (cd : CaptureData) : CaptureResult :=
  match cd.capture_error with
  | some err => ⟨false, some err, none⟩
  | none =>
    match cd.image_data with
    | some data => ⟨true, none, some (base64Encode data)⟩
    | none => ⟨false, some "Capture complete but no data", none⟩

/-- Oracle for one `canon_take_picture` run: results of the fallible native
calls it makes, the event batches its wait loop pumps, and the outcome of the
post-capture `resize_captured_jpeg` step (an external pure function). -/
structure TakePictureEnv where
  registerErr : Option Nat
  sendErr : Option Nat
  pumps : List (List ObjEvent)
  resizeResult : Except String (List Nat)

/-- Tail of `canon_take_picture` after precondition checks and handler
registration: reset `CAPTURE_DATA`, force SaveTo=Host and capacity, send
`TakePicture`, pump until complete or timeout, consume the record.  Every
exit applies the `CaptureGuard` drop. -/
def takePictureCore (env : TakePictureEnv) (s : S) : Except String CaptureResult × S :=
  let s1 := { s with captureData := some CaptureData.default,
                     device := { s.device with saveTo := SaveTo.host,
                                               capacity := some fullCapacity } }
  match env.sendErr with
  | some e =>
    (Except.ok ⟨false, some ("Take picture failed: " ++ errorToString e), none⟩,
     releaseGuard s1)
  | none =>
    let s2 := pumpLoop env.pumps s1
    let cd := s2.captureData.getD CaptureData.default
    let s3 := { s2 with captureData := some CaptureData.default }
    match cd.capture_error with
    | some err => (Except.ok ⟨false, some err, none⟩, releaseGuard s3)
    | none =>
      match cd.image_data with
      | some data =>
        let processed :=
          match env.resizeResult with
          | Except.ok p => p
          | Except.error _ => data  -- unwrap_or_else: keep the original bytes
        (Except.ok ⟨true, none, some (base64Encode processed)⟩, releaseGuard s3)
      | none =>
        (Except.ok ⟨false, some "Capture timeout - no image received", none⟩,
         releaseGuard s3)

/-- `canon_take_picture` (canon.rs 824-1034): blocking still capture. -/
def canon_take_picture (env : TakePictureEnv) (s : S) : Except String CaptureResult × S :=
  if s.sdkInitialized = false then
    (Except.ok ⟨false, some "SDK not initialized", none⟩, s)
  else if s.isCapturing = true then
    -- compare_exchange(false, true) failed
    (Except.ok ⟨false, some "Capture already in progress", none⟩, s)
  else
    let s1 := { s with isCapturing := true }
    match s1.manager with
    | none => (Except.error "Camera manager not initialized", releaseGuard s1)
    | some m =>
      if m.camera_ref = false then
        (Except.ok ⟨false, some "No camera connected", none⟩, releaseGuard s1)
      else if m.session_open = false then
        (Except.ok ⟨false, some "Session not open", none⟩, releaseGuard s1)
      else if m.event_handler_registered = false then
        match env.registerErr with
        | some e =>
          (Except.ok ⟨false, some ("Failed to register event handler: " ++ errorToString e),
                      none⟩,
           releaseGuard s1)
        | none =>
          takePictureCore env
            { s1 with manager := some { m with event_handler_registered := true } }
      else
        takePictureCore env s1

/-- Oracle for one `canon_send_shutter` run. -/
structure SendShutterEnv where
  registerErr : Option Nat
  sendErr : Option Nat

/-- Tail of `canon_send_shutter`: reset the capture record, send the
`TakePicture` command, return immediately. -/
def sendShutterCore (env : SendShutterEnv) (s : S) : Except String CaptureResult × S :=
  let s1 := { s with captureData := some CaptureData.default }
  match env.sendErr with
  | some e =>
    (Except.ok ⟨false, some ("Shutter failed: " ++ errorToString e), none⟩, s1)
  | none => (Except.ok ⟨true, none, none⟩, s1)

/-- `canon_send_shutter` (canon.rs 1038-1134): non-blocking shutter command. -/
def canon_send_shutter (env : SendShutterEnv) (s : S) : Except String CaptureResult × S :=
  if s.sdkInitialized = false then
    (Except.ok ⟨false, some "SDK not initialized", none⟩, s)
  else
    match s.manager with
    | none => (Except.error "Camera manager not initialized", s)
    | some m =>
      if m.camera_ref = false then
        (Except.ok ⟨false, some "No camera connected", none⟩, s)
      else if m.session_open = false then
        (Except.ok ⟨false, some "Session not open", none⟩, s)
      else if m.event_handler_registered = false then
        match env.registerErr with
        | some e =>
          (Except.ok ⟨false, some ("Failed to register handler: " ++ errorToString e), none⟩, s)
        | none =>
          sendShutterCore env
            { s with manager := some { m with event_handler_registered := true } }
      else
        sendShutterCore env s

/-- Oracle for the movie-stop flows. -/
structure StopMovieEnv where
  /-- `EdsSetPropertyData(Record, End)` error; the source only warns on it. -/
  recordStopErr : Option Nat
  pumps : List (List ObjEvent)

/-- The `canon_stop_movie_record` wait loop: pump until
`download_complete`; exhausting the batches is the 30 s timeout. -/
def moviePumpLoop : List (List ObjEvent) → S → S
  | [], s => s
  | batch :: rest, s =>
    let s1 := pumpBatch batch s
    if (s1.movieData.getD MovieData.default).download_complete = true then s1
    else moviePumpLoop rest s1

/-- `canon_stop_movie_record` (canon.rs 1695-1799): blocking movie stop. -/
def canon_stop_movie_record (env : StopMovieEnv) (s : S) : Except String String × S :=
  if s.isMovieRecording = false then (Except.error "Not currently recording", s)
  else
    match s.manager with
    | none => (Except.error "Camera manager not initialized", s)
    | some m =>
      if m.camera_ref = false then (Except.error "No camera connected", s)
      else
        -- reset movie data
        let s1 := { s with movieData := some MovieData.default }
        -- 1. Record := End (warn-and-continue on failure)
        let s2 :=
          match env.recordStopErr with
          | none => { s1 with device := { s1.device with recordProp := kEdsRecord_End } }
          | some _ => s1
        -- 2. wait for download (max 30 s)
        let s3 := moviePumpLoop env.pumps s2
        let s4 := { s3 with isMovieRecording := false }
        -- 3. MovieSelectSwOFF, 4. SaveTo := Host + capacity
        let s5 := { s4 with device := { s4.device with movieMode := false,
                                                       saveTo := SaveTo.host,
                                                       capacity := some fullCapacity } }
        -- 5. result
        let md := s5.movieData.getD MovieData.default
        match md.download_error with
        | some err => (Except.error ("Movie download failed: " ++ err), s5)
        | none =>
          match md.movie_path with
          | some path => (Except.ok path, s5)
          | none =>
            (Except.error "Movie download timeout — no file received from camera", s5)

/-- Oracle for `canon_stop_movie_record_fast`. -/
structure StopFastEnv where
  recordStopErr : Option Nat

/-- `canon_stop_movie_record_fast` (canon.rs 1817-1895): stop + mode restore
without waiting for the movie file; `IS_MOVIE_RECORDING` is left untouched. -/
def canon_stop_movie_record_fast (env : StopFastEnv) (s : S) : Except String Bool × S :=
  if s.isMovieRecording = false then (Except.error "Not currently recording", s)
  else
    match s.manager with
    | none => (Except.error "Camera manager not initialized", s)
    | some m =>
      if m.camera_ref = false then (Except.error "No camera connected", s)
      else
        let s1 := { s with movieData := some MovieData.default }
        let s2 :=
          match env.recordStopErr with
          | none => { s1 with device := { s1.device with recordProp := kEdsRecord_End } }
          | some _ => s1
        -- 2. MovieSelectSwOFF, 3. EVF off, 4. SaveTo := Host + capacity
        let s3 := { s2 with device := { s2.device with movieMode := false,
                                                       evfOutputPC := false,
                                                       saveTo := SaveTo.host,
                                                       capacity := some fullCapacity } }
        (Except.ok true, s3)

/-- The terminal result a completed movie record turns into. -/
def movieTerminal (md : MovieData) : Except String String :=
  match md.download_error with
  | some err => Except.error ("Movie download failed: " ++ err)
  | none =>
    match md.movie_path with
    | some path => Except.ok path
    | none => Except.error "Movie download completed but no file path"

/-- The `check_download` closure of `canon_finalize_movie_download`. -/
def checkDownload (md : MovieData) : Option (Except String String) :=
  if md.download_complete = true then some (movieTerminal md) else none

/-- The `restore_save_to_host` closure: SaveTo := Host and full capacity,
best-effort (no-op when no camera handle is held). -/
def restoreSaveToHost (s : S) : S :=
  match s.manager with
  | some m =>
    if m.camera_ref = true then
      { s with device := { s.device with saveTo := SaveTo.host,
                                         capacity := some fullCapacity } }
    else s
  | none => s

/-- Oracle for `canon_finalize_movie_download`. -/
structure FinalizeEnv where
  pumps : List (List ObjEvent)

/-- The `canon_finalize_movie_download` wait loop; exhausting the batches is
the 30 s timeout. -/
def finalizeLoop : List (List ObjEvent) → S → Except String String × S
  | [], s =>
    (Except.error "Movie download timeout — no file received from camera",
     restoreSaveToHost { s with isMovieRecording := false })
  | batch :: rest, s =>
    let s1 := pumpBatch batch s
    match checkDownload (s1.movieData.getD MovieData.default) with
    | some result => (result, restoreSaveToHost { s1 with isMovieRecording := false })
    | none => finalizeLoop rest s1

/-- `canon_finalize_movie_download` (canon.rs 2182-2268). -/
def canon_finalize_movie_download (env : FinalizeEnv) (s : S) : Except String String × S :=
  -- MOVIE_DATA.get_or_init
  let md0 := s.movieData.getD MovieData.default
  let s0 := { s with movieData := some md0 }
  -- 1. already downloaded?
  match checkDownload md0 with
  | some result => (result, restoreSaveToHost { s0 with isMovieRecording := false })
  | none => finalizeLoop env.pumps s0

/-- Oracle for `canon_take_photo_during_recording`, including the
environments of the functions the fallback path delegates to. -/
structure TpdrEnv where
  /-- `PressShutterButton Completely_NonAF` error. -/
  pressErr : Option Nat
  pumps : List (List ObjEvent)
  resizeResult : Except String (List Nat)
  stopFastEnv : StopFastEnv
  takePicEnv : TakePictureEnv

/-- `canon_take_photo_during_recording` (canon.rs 1916-2172). -/
def canon_take_photo_during_recording (env : TpdrEnv) (s : S) :
    Except String CaptureResult × S :=
  if s.isMovieRecording = false then
    -- not recording: delegate to normal capture
    canon_take_picture env.takePicEnv s
  else if s.sdkInitialized = false then
    (Except.ok ⟨false, some "SDK not initialized", none⟩, s)
  else if s.isCapturing = true then
    (Except.ok ⟨false, some "Capture already in progress", none⟩, s)
  else
    let s1 := { s with isCapturing := true }
    match s1.manager with
    | none => (Except.error "Camera manager not initialized", releaseGuard s1)
    | some m =>
      if m.camera_ref = false then
        (Except.error "No camera connected", releaseGuard s1)
      else
        -- 1-2. SaveTo := Both + capacity; 3-4. reset capture and movie data
        let s2 := { s1 with
          device := { s1.device with saveTo := SaveTo.both, capacity := some fullCapacity },
          captureData := some CaptureData.default,
          movieData := some MovieData.default }
        -- 5. PressShutterButton Completely_NonAF
        match env.pressErr with
        | some _ =>
          -- release the shutter button, drop the guard, stop fast, delegate
          let s3 := { s2 with device := { s2.device with shutterPressed := false } }
          let s4 := releaseGuard s3
          let s5 := (canon_stop_movie_record_fast env.stopFastEnv s4).2
          canon_take_picture env.takePicEnv s5
        | none =>
          let s3 := { s2 with device := { s2.device with shutterPressed := true } }
          -- 6. pump until the photo arrives (max 15 s)
          let s4 := pumpLoop env.pumps s3
          -- release the shutter button
          let s5 := { s4 with device := { s4.device with shutterPressed := false } }
          -- 7. Record := End, MovieSelectSwOFF, EVF off; SaveTo deliberately kept
          let s6 := { s5 with device := { s5.device with recordProp := kEdsRecord_End,
                                                         movieMode := false,
                                                         evfOutputPC := false } }
          -- 8. consume the photo record
          let cd := s6.captureData.getD CaptureData.default
          let s7 := { s6 with captureData := some CaptureData.default }
          match cd.capture_error with
          | some err => (Except.ok ⟨false, some err, none⟩, releaseGuard s7)
          | none =>
            match cd.image_data with
            | some data =>
              let processed :=
                match env.resizeResult with
                | Except.ok p => p
                | Except.error _ => data
              (Except.ok ⟨true, none, some (base64Encode processed)⟩, releaseGuard s7)
            | none =>
              -- no photo despite completion: stop-then-shoot fallback
              let s8 := releaseGuard s7
              let s9 := { s8 with device := { s8.device with movieMode := false,
                                                             evfOutputPC := false } }
              canon_take_picture env.takePicEnv s9

/-! ### Frame lemmas: the object-event handler only writes the two records -/

theorem object_event_handler_device (ev : ObjEvent) (s : S) :
    (object_event_handler ev s).device = s.device := by
  cases ev <;> simp only [object_event_handler] <;> (repeat' split) <;> rfl

theorem object_event_handler_manager (ev : ObjEvent) (s : S) :
    (object_event_handler ev s).manager = s.manager := by
  cases ev <;> simp only [object_event_handler] <;> (repeat' split) <;> rfl

theorem object_event_handler_isMovieRecording (ev : ObjEvent) (s : S) :
    (object_event_handler ev s).isMovieRecording = s.isMovieRecording := by
  cases ev <;> simp only [object_event_handler] <;> (repeat' split) <;> rfl

theorem pumpBatch_device : ∀ (batch : List ObjEvent) (s : S),
    (pumpBatch batch s).device = s.device
  | [], _ => rfl
  | ev :: rest, s => by
    rw [pumpBatch, pumpBatch_device rest, object_event_handler_device]

theorem pumpBatch_manager : ∀ (batch : List ObjEvent) (s : S),
    (pumpBatch batch s).manager = s.manager
  | [], _ => rfl
  | ev :: rest, s => by
    rw [pumpBatch, pumpBatch_manager rest, object_event_handler_manager]

theorem moviePumpLoop_device : ∀ (l : List (List ObjEvent)) (s : S),
    (moviePumpLoop l s).device = s.device
  | [], _ => rfl
  | batch :: rest, s => by
    simp only [moviePumpLoop]
    split
    · exact pumpBatch_device batch s
    · rw [moviePumpLoop_device rest, pumpBatch_device]

/-! ### Shared concrete fixtures for witnesses and counterexamples -/

/-- A camera in still mode, saving to host, nothing pressed. -/
def devHost : CameraDevice :=
  { saveTo := SaveTo.host, capacity := some fullCapacity, evfOutputPC := false,
    movieMode := false, recordProp := 0, shutterPressed := false }

/-- A fully set-up manager: handle held, session open, handlers registered. -/
def mgrReady : CameraManager :=
  { camera_ref := true, session_open := true, event_handler_registered := true,
    state_event_handler_registered := true }

/-- SDK initialised, connected, idle; no capture or movie record yet. -/
def sReady : S :=
  { sdkInitialized := true, isCapturing := false, isMovieRecording := false,
    captureData := none, movieData := none, manager := some mgrReady, device := devHost }

/-- The camera mid-recording: movie mode, live view to PC, saving to SD. -/
def devMovieRec : CameraDevice :=
  { saveTo := SaveTo.camera, capacity := some fullCapacity, evfOutputPC := true,
    movieMode := true, recordProp := kEdsRecord_Begin, shutterPressed := false }

/-- A recording-in-progress global state. -/
def sRec : S := { sReady with isMovieRecording := true, device := devMovieRec }

/-- A completed movie-record fixture. -/
def mdDone : MovieData := ⟨some "bonio-booth/videos/MVI_0001.MP4", true, none⟩

/-! ### C1 — poll_capture_result lifecycle -/

/-- C1 counterexample: after a completed capture has been consumed, a second
`canon_get_capture_result` call returns the pending result
`{success:false, error:None}`, not "no capture in progress" — the
`CAPTURE_DATA` cell still exists, merely reset to its default. -/
theorem C1_second_poll_counterexample :
    (canon_get_capture_result
        (canon_get_capture_result
          { sReady with captureData := some ⟨some [1, 2], true, none⟩ }).2).1
      = Except.ok pendingResult
    ∧ pendingResult ≠ noCaptureResult := by
  exact ⟨rfl, by decide⟩

/-- C1 (amended): `poll_capture_result` returns "no capture in progress" when
the capture cell was never created; the pending result while a record exists
but is not complete; and on a complete record the terminal result (image or
recorded error) exactly once, resetting the record to empty — a second call
after consumption returns the pending result, not "no capture in progress". -/
theorem C1_poll_capture_result (s : S) :
    (s.captureData = none →
      canon_get_capture_result s = (Except.ok noCaptureResult, s))
    ∧ (∀ cd, s.captureData = some cd → cd.capture_complete = false →
        canon_get_capture_result s = (Except.ok pendingResult, s))
    ∧ (∀ cd, s.captureData = some cd → cd.capture_complete = true →
        canon_get_capture_result s
          = (Except.ok (captureTerminal cd), { s with captureData := some CaptureData.default })
        ∧ (canon_get_capture_result
            { s with captureData := some CaptureData.default }).1 = Except.ok pendingResult) := by
  refine ⟨fun h => ?_, fun cd h hc => ?_, fun cd h hc => ⟨?_, ?_⟩⟩
  · simp [canon_get_capture_result, h]
  · simp [canon_get_capture_result, h, hc]
  · cases cd with
    | mk img comp err =>
      cases hc
      cases err <;> cases img <;>
        simp [canon_get_capture_result, h, captureTerminal]
  · simp [canon_get_capture_result, CaptureData.default]

/-- C1 witness: the amended lifecycle evaluated on a concrete completed
record. -/
theorem C1_poll_capture_result_witness :
    canon_get_capture_result { sReady with captureData := some ⟨some [5], true, none⟩ }
      = (Except.ok (captureTerminal ⟨some [5], true, none⟩),
         { { sReady with captureData := some ⟨some [5], true, none⟩ } with
             captureData := some CaptureData.default })
    ∧ (canon_get_capture_result
        { { sReady with captureData := some ⟨some [5], true, none⟩ } with
            captureData := some CaptureData.default }).1 = Except.ok pendingResult :=
  (C1_poll_capture_result { sReady with captureData := some ⟨some [5], true, none⟩ }).2.2
    ⟨some [5], true, none⟩ rfl rfl

/-! ### C9 — take_picture with the SDK uninitialised -/

/-- C9: with the SDK uninitialised, `canon_take_picture` returns
`{success:false, error:"SDK not initialized"}` and leaves the whole state —
device properties, capture record, and the capture guard — untouched. -/
theorem C9_take_picture_sdk_uninitialized (env : TakePictureEnv) (s : S)
    (h : s.sdkInitialized = false) :
    canon_take_picture env s
      = (Except.ok ⟨false, some "SDK not initialized", none⟩, s) := by
  simp [canon_take_picture, h]

/-- C9 witness: evaluated on a concrete uninitialised state. -/
theorem C9_take_picture_sdk_uninitialized_witness :
    canon_take_picture ⟨none, none, [], Except.ok []⟩ { sReady with sdkInitialized := false }
      = (Except.ok ⟨false, some "SDK not initialized", none⟩,
         { sReady with sdkInitialized := false }) :=
  C9_take_picture_sdk_uninitialized ⟨none, none, [], Except.ok []⟩
    { sReady with sdkInitialized := false } rfl

/-! ### C2 — the capture guard is released on every exit of take_picture -/

theorem takePictureCore_isCapturing (env : TakePictureEnv) (s : S) :
    ((takePictureCore env s).2).isCapturing = false := by
  simp only [takePictureCore]
  repeat' split
  all_goals rfl

/-- C2: whenever `canon_take_picture` gets past its precondition checks and
acquires the capture guard (SDK initialised, no capture in flight), the
`is_capturing` flag is `false` again in the state it returns, on every exit
path — so a failed capture never blocks a later one. -/
theorem C2_take_picture_releases_guard (env : TakePictureEnv) (s : S)
    (hsdk : s.sdkInitialized = true) (hcap : s.isCapturing = false) :
    ((canon_take_picture env s).2).isCapturing = false := by
  simp only [canon_take_picture, hsdk, hcap]
  norm_num
  repeat' split
  all_goals first
    | rfl
    | exact takePictureCore_isCapturing _ _

/-- C2 witness: a command-send failure on a concrete ready state still ends
with the guard released. -/
theorem C2_take_picture_releases_guard_witness :
    sReady.sdkInitialized = true ∧ sReady.isCapturing = false ∧
    ((canon_take_picture ⟨none, some 0x00000081, [], Except.ok []⟩ sReady).2).isCapturing
      = false :=
  ⟨rfl, rfl, C2_take_picture_releases_guard ⟨none, some 0x00000081, [], Except.ok []⟩
    sReady rfl rfl⟩

/-! ### C3 — send_shutter does not check the capture guard -/

/-- C3 counterexample: with a capture already in flight (`is_capturing =
true`) and the save-destination still pointing at the SD card,
`canon_send_shutter` does not reject with "capture already in progress": it
proceeds, sends the shutter command (resetting the capture record) and
returns success — and it never re-forces SaveTo=Host the way
`canon_take_picture` does. -/
theorem C3_send_shutter_no_guard_counterexample :
    (canon_send_shutter ⟨none, none⟩
        { sReady with isCapturing := true,
                      device := { devHost with saveTo := SaveTo.camera } }).1
      = Except.ok ⟨true, none, none⟩
    ∧ (⟨true, none, none⟩ : CaptureResult) ≠ ⟨false, some "Capture already in progress", none⟩
    ∧ ((canon_send_shutter ⟨none, none⟩
        { sReady with isCapturing := true,
                      device := { devHost with saveTo := SaveTo.camera } }).2).device.saveTo
      = SaveTo.camera := by
  exact ⟨rfl, by decide, rfl⟩

/-- C3 (amended): `canon_send_shutter` checks SDK initialised, camera
connected and session open, registers the object handler and resets the
capture record exactly like `take_picture`, and returns immediately after a
successful command send, leaving `capture_complete` to be polled; but unlike
`take_picture` it neither checks nor acquires the capture guard — a capture
already in flight is not rejected — and it does not re-force the
save-destination or capacity before sending.  With the handler already
registered and a successful send, the only state change is the capture-record
reset. -/
theorem C3_send_shutter (env : SendShutterEnv) (s : S) (m : CameraManager)
    (hsdk : s.sdkInitialized = true) (hm : s.manager = some m)
    (hcam : m.camera_ref = true) (hsess : m.session_open = true)
    (hreg : m.event_handler_registered = true) (hsend : env.sendErr = none) :
    canon_send_shutter env s
      = (Except.ok ⟨true, none, none⟩, { s with captureData := some CaptureData.default }) := by
  simp [canon_send_shutter, sendShutterCore, hsdk, hm, hcam, hsess, hreg, hsend]

/-- C3 witness: a concrete mid-capture state on which `send_shutter` still
goes through. -/
theorem C3_send_shutter_witness :
    canon_send_shutter ⟨none, none⟩ { sReady with isCapturing := true }
      = (Except.ok ⟨true, none, none⟩,
         { { sReady with isCapturing := true } with
             captureData := some CaptureData.default }) :=
  C3_send_shutter ⟨none, none⟩ { sReady with isCapturing := true } mgrReady
    rfl rfl rfl rfl rfl rfl

/-! ### C4 — stop_recording_wait restores still mode and host save, but the
source never turns live view off in this flow -/

/-- C4 counterexample: a recording state with live view on; the blocking stop
returns (here: the timeout error, one of the claim's enumerated outcomes)
with `is_recording` false, still mode and SaveTo=Host restored — but the EVF
output is still on: `canon_stop_movie_record` contains no
`Evf_OutputDevice := 0` write. -/
theorem C4_live_view_not_off_counterexample :
    (canon_stop_movie_record ⟨none, []⟩ sRec).1
      = Except.error "Movie download timeout — no file received from camera"
    ∧ ((canon_stop_movie_record ⟨none, []⟩ sRec).2).device.evfOutputPC = true := by
  exact ⟨rfl, rfl⟩

/-- C4 (amended): for every `canon_stop_movie_record` invocation while
recording (camera connected), when the call returns — with the local path,
the recorded download error, or the timeout error — `IS_MOVIE_RECORDING` is
false, the camera has been switched back to still mode, and the
save-destination has been restored to host with full capacity; the live-view
output is left unchanged (it is turned off only by the fast-stop variant). -/
theorem C4_stop_movie_record_restores (env : StopMovieEnv) (s : S) (m : CameraManager)
    (hrec : s.isMovieRecording = true) (hm : s.manager = some m)
    (hcam : m.camera_ref = true) :
    ((canon_stop_movie_record env s).2).isMovieRecording = false
    ∧ ((canon_stop_movie_record env s).2).device.movieMode = false
    ∧ ((canon_stop_movie_record env s).2).device.saveTo = SaveTo.host
    ∧ ((canon_stop_movie_record env s).2).device.capacity = some fullCapacity
    ∧ ((canon_stop_movie_record env s).2).device.evfOutputPC = s.device.evfOutputPC := by
  refine ⟨?_, ?_, ?_, ?_, ?_⟩ <;>
    · simp only [canon_stop_movie_record, hrec, hm, hcam]
      norm_num
      repeat' split
      all_goals simp [moviePumpLoop_device]

/-- C4 witness: the amended restore properties on a concrete recording
state. -/
theorem C4_stop_movie_record_restores_witness :
    ((canon_stop_movie_record ⟨none, []⟩ sRec).2).isMovieRecording = false
    ∧ ((canon_stop_movie_record ⟨none, []⟩ sRec).2).device.movieMode = false
    ∧ ((canon_stop_movie_record ⟨none, []⟩ sRec).2).device.saveTo = SaveTo.host
    ∧ ((canon_stop_movie_record ⟨none, []⟩ sRec).2).device.capacity = some fullCapacity
    ∧ ((canon_stop_movie_record ⟨none, []⟩ sRec).2).device.evfOutputPC = true :=
  C4_stop_movie_record_restores ⟨none, []⟩ sRec mgrReady rfl rfl rfl

/-! ### C5 — finalize_movie_download -/

theorem finalizeLoop_exit (m : CameraManager) (hcam : m.camera_ref = true) :
    ∀ (l : List (List ObjEvent)) (s : S), s.manager = some m →
      ((finalizeLoop l s).2.isMovieRecording = false
       ∧ (finalizeLoop l s).2.device.saveTo = SaveTo.host)
  | [], s, hm => by
    simp only [finalizeLoop, restoreSaveToHost, hm, hcam]
    exact ⟨rfl, rfl⟩
  | batch :: rest, s, hm => by
    have hm1 : (pumpBatch batch s).manager = some m := by
      rw [pumpBatch_manager]; exact hm
    simp only [finalizeLoop]
    split
    · simp only [restoreSaveToHost, hm1, hcam]
      exact ⟨rfl, rfl⟩
    · exact finalizeLoop_exit m hcam rest (pumpBatch batch s) hm1

/-- C5: `canon_finalize_movie_download` returns the terminal result
immediately — independently of the event pump, i.e. without entering the
wait loop — when the movie record is already complete; and on every exit
(path, recorded error, or timeout) it sets `IS_MOVIE_RECORDING` to false and
restores the save-destination to host. -/
theorem C5_finalize_movie_download (env : FinalizeEnv) (s : S) (m : CameraManager)
    (hm : s.manager = some m) (hcam : m.camera_ref = true) :
    ((canon_finalize_movie_download env s).2).isMovieRecording = false
    ∧ ((canon_finalize_movie_download env s).2).device.saveTo = SaveTo.host
    ∧ (∀ md, s.movieData = some md → md.download_complete = true →
        canon_finalize_movie_download env s
          = (movieTerminal md,
             restoreSaveToHost
               { s with movieData := some md, isMovieRecording := false })) := by
  refine ⟨?_, ?_, fun md hmd hc => ?_⟩
  · simp only [canon_finalize_movie_download]
    split
    · simp only [restoreSaveToHost, hm, hcam]; rfl
    · exact (finalizeLoop_exit m hcam env.pumps
        { s with movieData := some (s.movieData.getD MovieData.default) } hm).1
  · simp only [canon_finalize_movie_download]
    split
    · simp only [restoreSaveToHost, hm, hcam]; rfl
    · exact (finalizeLoop_exit m hcam env.pumps
        { s with movieData := some (s.movieData.getD MovieData.default) } hm).2
  · simp [canon_finalize_movie_download, hmd, checkDownload, hc]

/-- C5 witness: a concrete already-complete movie record is returned
immediately, with the flag cleared and SaveTo restored. -/
theorem C5_finalize_movie_download_witness :
    canon_finalize_movie_download ⟨[]⟩
        { sReady with isMovieRecording := true, movieData := some mdDone }
      = (movieTerminal mdDone,
         restoreSaveToHost { sReady with movieData := some mdDone }) :=
  (C5_finalize_movie_download ⟨[]⟩
      { sReady with isMovieRecording := true, movieData := some mdDone }
      mgrReady rfl rfl).2.2 mdDone rfl rfl

/-! ### C6 — stop_recording_fast -/

/-- C6: a successful `canon_stop_movie_record_fast` issues end-recording,
switches back to still mode, turns live view off, and restores SaveTo=Host
with full capacity — but does not wait for the movie file: the movie record
is merely reset (not completed) and `IS_MOVIE_RECORDING` stays true, so a
later `DirItemCreated` notification is still attributed to the movie. -/
theorem C6_stop_movie_record_fast (env : StopFastEnv) (s : S) (m : CameraManager)
    (hrec : s.isMovieRecording = true) (hm : s.manager = some m)
    (hcam : m.camera_ref = true) (hstop : env.recordStopErr = none) :
    canon_stop_movie_record_fast env s
      = (Except.ok true,
         { s with movieData := some MovieData.default,
                  device := { s.device with recordProp := kEdsRecord_End, movieMode := false, evfOutputPC := false, saveTo := SaveTo.host, capacity := some fullCapacity } })
    ∧ ((canon_stop_movie_record_fast env s).2).isMovieRecording = true := by
  have h1 : canon_stop_movie_record_fast env s
      = (Except.ok true,
         { s with movieData := some MovieData.default,
                  device := { s.device with recordProp := kEdsRecord_End, movieMode := false, evfOutputPC := false, saveTo := SaveTo.host, capacity := some fullCapacity } }) := by
    simp [canon_stop_movie_record_fast, hrec, hm, hcam, hstop]
  exact ⟨h1, by rw [h1]; exact hrec⟩

/-- C6 witness: the fast stop evaluated on a concrete recording state. -/
theorem C6_stop_movie_record_fast_witness :
    canon_stop_movie_record_fast ⟨none⟩ sRec
      = (Except.ok true,
         { sRec with movieData := some MovieData.default,
                     device := (⟨SaveTo.host, some fullCapacity, false, false, kEdsRecord_End, false⟩ : CameraDevice) })
    ∧ ((canon_stop_movie_record_fast ⟨none⟩ sRec).2).isMovieRecording = true :=
  C6_stop_movie_record_fast ⟨none⟩ sRec mgrReady rfl rfl rfl rfl

/-! ### C7 — the still-photo branch of the object-event handler completes
with exactly one of image bytes or error -/

/-- C7: starting from an empty capture record, whenever the still-photo
(`DirItemRequestTransfer`) branch of `object_event_handler` sets
`capture_complete = true`, exactly one of `image_data` and `capture_error`
is set: every download-failure path records an error, and the success path
sets the bytes and clears the error. -/
theorem C7_photo_branch_exactly_one (o : DirItemTransferOutcome) (s : S)
    (h : s.captureData = some CaptureData.default) (cd : CaptureData)
    (hcd : (object_event_handler (ObjEvent.dirItemRequestTransfer o) s).captureData = some cd)
    (_hcomplete : cd.capture_complete = true) :
    (cd.image_data.isSome = true ∧ cd.capture_error = none)
    ∨ (cd.image_data = none ∧ cd.capture_error.isSome = true) := by
  obtain ⟨di, cs, dl, gp, lo, dt⟩ := o
  cases di <;> cases cs <;> cases dl <;> cases gp <;> cases lo <;>
    simp_all [object_event_handler, CaptureData.default] <;>
    (rw [← hcd]; simp)

/-- C7 witness: a concrete failing download (`EdsDownload` error) completes
the record with an error and no image. -/
theorem C7_photo_branch_exactly_one_witness :
    ((⟨none, true, some "Download failed: Device busy"⟩ : CaptureData).image_data.isSome = true
      ∧ (⟨none, true, some "Download failed: Device busy"⟩ : CaptureData).capture_error = none)
    ∨ ((⟨none, true, some "Download failed: Device busy"⟩ : CaptureData).image_data = none
      ∧ (⟨none, true, some "Download failed: Device busy"⟩ : CaptureData).capture_error.isSome
          = true) :=
  C7_photo_branch_exactly_one ⟨none, none, some 0x00000081, true, true, []⟩
    { sReady with captureData := some CaptureData.default }
    rfl ⟨none, true, some "Download failed: Device busy"⟩ rfl rfl

/-! ### C8 — the press-shutter-failure fallback of take_photo_during_recording -/

/-- C8: when `canon_take_photo_during_recording` is invoked while recording
and the `PressShutterButton` command fails, it releases the shutter press
(`shutterPressed := false`), releases the capture guard
(`isCapturing := false`), performs `canon_stop_movie_record_fast`, and then
delegates to `canon_take_picture` on the resulting state — so the returned
value is literally a `canon_take_picture` result and has the same
`CaptureResult` shape as a direct still capture. -/
theorem C8_press_fail_falls_back (env : TpdrEnv) (s : S) (m : CameraManager)
    (hrec : s.isMovieRecording = true) (hsdk : s.sdkInitialized = true)
    (hcap : s.isCapturing = false) (hm : s.manager = some m)
    (hcam : m.camera_ref = true) (e : Nat) (hpress : env.pressErr = some e) :
    canon_take_photo_during_recording env s
      = canon_take_picture env.takePicEnv
          ((canon_stop_movie_record_fast env.stopFastEnv
            { s with isCapturing := false,
                     captureData := some CaptureData.default,
                     movieData := some MovieData.default,
                     device := { s.device with saveTo := SaveTo.both, capacity := some fullCapacity, shutterPressed := false } }).2) := by
  simp [canon_take_photo_during_recording, hrec, hsdk, hcap, hm, hcam, hpress, releaseGuard]

/-- C8 witness: the fallback evaluated on a concrete recording state with a
failing shutter-press command. -/
theorem C8_press_fail_falls_back_witness :
    canon_take_photo_during_recording
        ⟨some 0x00000007, [], Except.ok [], ⟨none⟩, ⟨none, none, [], Except.ok []⟩⟩ sRec
      = canon_take_picture ⟨none, none, [], Except.ok []⟩
          ((canon_stop_movie_record_fast ⟨none⟩
            { sRec with isCapturing := false,
                        captureData := some CaptureData.default,
                        movieData := some MovieData.default,
                        device := { sRec.device with saveTo := SaveTo.both, capacity := some fullCapacity, shutterPressed := false } }).2) :=
  C8_press_fail_falls_back
    ⟨some 0x00000007, [], Except.ok [], ⟨none⟩, ⟨none, none, [], Except.ok []⟩⟩ sRec
    mgrReady rfl rfl rfl rfl rfl 0x00000007 rfl

/-! ### C10 — a failing resize step never spoils a successful capture -/

/-- All native calls of the still-photo download succeed and deliver
`o.data`. -/
def transferOk (o : DirItemTransferOutcome) : Prop :=
  o.dirInfoErr = none ∧ o.createStreamErr = none ∧ o.downloadErr = none
  ∧ o.getPointerOk = true ∧ o.lengthOk = true

/-- C10: in both `canon_take_picture` and
`canon_take_photo_during_recording`, when the capture completes with image
bytes but `resize_captured_jpeg` fails, the call still returns
`success:true` with the original unmodified bytes, base64-encoded —
post-processing failure never converts a successful capture into an error
result. -/
theorem C10_resize_failure_keeps_original :
    (∀ (env : TakePictureEnv) (s : S) (m : CameraManager) (o : DirItemTransferOutcome)
        (emsg : String),
      s.sdkInitialized = true → s.isCapturing = false → s.manager = some m →
      m.camera_ref = true → m.session_open = true → m.event_handler_registered = true →
      env.sendErr = none → env.pumps = [[ObjEvent.dirItemRequestTransfer o]] →
      transferOk o → env.resizeResult = Except.error emsg →
      (canon_take_picture env s).1
        = Except.ok ⟨true, none, some (base64Encode o.data)⟩)
    ∧ (∀ (env : TpdrEnv) (s : S) (m : CameraManager) (o : DirItemTransferOutcome)
        (emsg : String),
      s.isMovieRecording = true → s.sdkInitialized = true → s.isCapturing = false →
      s.manager = some m → m.camera_ref = true →
      env.pressErr = none → env.pumps = [[ObjEvent.dirItemRequestTransfer o]] →
      transferOk o → env.resizeResult = Except.error emsg →
      (canon_take_photo_during_recording env s).1
        = Except.ok ⟨true, none, some (base64Encode o.data)⟩) := by
  constructor
  · intro env s m o emsg hsdk hcap hm hcam hsess hreg hsend hpumps ho hresize
    obtain ⟨h1, h2, h3, h4, h5⟩ := ho
    simp [canon_take_picture, takePictureCore, pumpLoop, pumpBatch, object_event_handler,
      CaptureData.default, hsdk, hcap, hm, hcam, hsess, hreg, hsend, hpumps, hresize,
      h1, h2, h3, h4, h5, releaseGuard]
  · intro env s m o emsg hrec hsdk hcap hm hcam hpress hpumps ho hresize
    obtain ⟨h1, h2, h3, h4, h5⟩ := ho
    simp [canon_take_photo_during_recording, pumpLoop, pumpBatch, object_event_handler,
      CaptureData.default, hrec, hsdk, hcap, hm, hcam, hpress, hpumps, hresize,
      h1, h2, h3, h4, h5, releaseGuard]

/-- C10 witness: both capture flows, on a concrete state where the download
delivers bytes `[9, 9]` and the resize step fails, still return success with
the original bytes base64-encoded. -/
theorem C10_resize_failure_keeps_original_witness :
    ((canon_take_picture
        ⟨none, none, [[ObjEvent.dirItemRequestTransfer ⟨none, none, none, true, true, [9, 9]⟩]],
         Except.error "JPEG encode error: boom"⟩ sReady).1
      = Except.ok ⟨true, none, some (base64Encode [9, 9])⟩)
    ∧ ((canon_take_photo_during_recording
        ⟨none, [[ObjEvent.dirItemRequestTransfer ⟨none, none, none, true, true, [9, 9]⟩]],
         Except.error "JPEG encode error: boom", ⟨none⟩, ⟨none, none, [], Except.ok []⟩⟩ sRec).1
      = Except.ok ⟨true, none, some (base64Encode [9, 9])⟩) :=
  ⟨C10_resize_failure_keeps_original.1
      ⟨none, none, [[ObjEvent.dirItemRequestTransfer ⟨none, none, none, true, true, [9, 9]⟩]],
       Except.error "JPEG encode error: boom"⟩ sReady mgrReady
      ⟨none, none, none, true, true, [9, 9]⟩ "JPEG encode error: boom"
      rfl rfl rfl rfl rfl rfl rfl rfl ⟨rfl, rfl, rfl, rfl, rfl⟩ rfl,
   C10_resize_failure_keeps_original.2
      ⟨none, [[ObjEvent.dirItemRequestTransfer ⟨none, none, none, true, true, [9, 9]⟩]],
       Except.error "JPEG encode error: boom", ⟨none⟩, ⟨none, none, [], Except.ok []⟩⟩ sRec
      mgrReady ⟨none, none, none, true, true, [9, 9]⟩ "JPEG encode error: boom"
      rfl rfl rfl rfl rfl rfl rfl ⟨rfl, rfl, rfl, rfl, rfl⟩ rfl⟩

end Canon
